import Mathlib

/-!
Verification of `src/October_2025/github_replicator.py` (repository
CxLos/Nav_Sep_2025) against its natural-language specification.

The development shallowly embeds the pure core of the script:

* `pyReplace` models Python's `str.replace(old, new)` for a non-empty
  pattern: a left-to-right scan replacing every non-overlapping
  occurrence (the script only ever calls `replace` with non-empty
  patterns; for an empty pattern the model returns the string unchanged,
  a case the script never exercises).
* `replacements` / `update_content_references` embed lines 112-129.
* `get_file_content` / `create_file` embed the response handling of
  lines 81-110, with the HTTP response and the base64 decoder abstracted.
* `processItem` / `replicate_folder_level` embed one level of
  `replicate_folder` (lines 131-178), with the remote store abstracted as
  a fetch oracle and a create-success oracle, and with every remote call
  recorded in the state.
* `GHNode` / `replicate_folder` / `replicate_items` embed the full
  recursive walk over an explicit directory tree, returning the
  chronological list of per-level `(folder, success, total)` reports.
-/

/-- Python `s.replace(old, new)` on explicit character lists: scan left to
right; whenever the (non-empty) pattern is a prefix of the remaining
input, emit the replacement and continue after the matched occurrence,
otherwise emit one character and continue. -/
def pyReplace (s pat rep : List Char) : List Char :=
  match s, pat with
  | s, [] => s
  | [], _ :: _ => []
  | c :: rest, p :: ps =>
    if (p :: ps) <+: (c :: rest) then
      rep ++ pyReplace (List.drop ps.length rest) (p :: ps) rep
    else
      c :: pyReplace rest (p :: ps) rep
termination_by s.length
decreasing_by
  · simp only [List.length_cons, List.length_drop]
    omega
  · simp only [List.length_cons]
    omega

/-- String-level wrapper for `pyReplace`, i.e. Python `s.replace(old, new)`. -/
def pyReplaceStr (s old new : String) : String :=
  String.mk (pyReplace s.data old.data new.data)

/-- The substitution table of `update_content_references`
(lines 114-123), in the source's iteration order.  Note that every key is
literally equal to its value. -/
def replacements : List (String × String) :=
  [("Nav_Oct_2025", "Nav_Oct_2025"),
   ("October_2025", "October_2025"),
   ("October", "October"),
   ("october", "october"),
   ("Oct", "Oct"),
   ("oct", "oct"),
   ("2025-10", "2025-10"),
   ("10/2025", "10/2025")]

/-- Lines 112-129: apply each `(old, new)` pair of the table in order,
each substitution operating on the output of the previous one. -/
def update_content_references (content : String) : String :=
  replacements.foldl (fun acc pr => pyReplaceStr acc pr.1 pr.2) content

/-- Table sanity condition named by the spec's idempotence property: no
find-pattern occurs inside the replacement value of any later pair. -/
def noEarlierFindInLaterValue : List (String × String) → Bool
  | [] => true
  | (old, _) :: rest =>
    (rest.all fun pr => !(decide (old.data <:+: pr.2.data))) &&
      noEarlierFindInLaterValue rest

/-- An HTTP response from the content API, abstracted to the fields the
script reads: the status code and, for a file GET, the JSON body's
base64 content and sha fields. -/
structure HttpResponse where
  status_code : Nat
  body_content : String
  body_sha : String
deriving DecidableEq

/-- Lines 81-92: on a 200 response decode the body's content field and
return it with the sha; on any other status return `("", "")`.  The
base64-and-UTF-8 decoding is abstracted as the `b64decode` parameter. -/
def get_file_content (b64decode : String → String) (response : HttpResponse) :
    String × String :=
  if response.status_code = 200 then
    (b64decode response.body_content, response.body_sha)
  else
    ("", "")

/-- Lines 94-110: a create is reported successful exactly when the PUT
answered status 201. -/
def create_file (response : HttpResponse) : Bool :=
  response.status_code == 201

/-- One entry of a directory listing, with the fields the script reads. -/
structure Entry where
  name : String
  path : String
  type : String
deriving DecidableEq

/-- The observable state of one `replicate_folder` invocation: the two
per-level counters of lines 142-143 plus a record of every remote call
issued and every log line printed at this level. -/
structure LevelState where
  success_count : Nat
  total_count : Nat
  fetch_calls : List String
  create_calls : List String
  recurse_calls : List (String × String)
  logs : List String
deriving DecidableEq

def initLevelState : LevelState :=
  { success_count := 0, total_count := 0, fetch_calls := [], create_calls := [],
    recurse_calls := [], logs := [] }

/-- Lines 145-176, the body of the `for item in contents` loop, for one
item.  The remote store is abstracted by `fetch` (what
`get_file_content` returns for a path) and `createOk` (whether
`create_file` succeeds for a path and content); every fetch, create
attempt and recursive call is recorded in the state. -/
def processItem (fetch : String → String × String) (createOk : String → String → Bool)
    (source_folder target_folder : String) (st : LevelState) (item : Entry) :
    LevelState :=
  let st1 := { st with total_count := st.total_count + 1 }
  if item.type = "file" then
    let source_path := item.path
    let target_path := pyReplaceStr source_path source_folder target_folder
    let fetched := fetch source_path
    let st2 := { st1 with fetch_calls := st1.fetch_calls ++ [source_path] }
    if fetched.1 ≠ "" then
      let updated_content := update_content_references fetched.1
      let st3 := { st2 with create_calls := st2.create_calls ++ [target_path] }
      if createOk target_path updated_content then
        { st3 with success_count := st3.success_count + 1 }
      else
        st3
    else
      st2
  else if item.type = "dir" then
    { st1 with recurse_calls :=
        st1.recurse_calls ++ [(item.path, pyReplaceStr item.path source_folder target_folder)] }
  else
    st1

/-- Lines 131-178 for one directory level: start with the banner log,
short-circuit with the no-contents log when the listing is empty,
otherwise fold the loop body over the listing and print the completion
summary. -/
def replicate_folder_level (fetch : String → String × String)
    (createOk : String → String → Bool) (contents : List Entry)
    (source_folder target_folder : String) : LevelState :=
  let st0 := { initLevelState with
    logs := ["🚀 Starting replication: " ++ source_folder ++ " → " ++ target_folder] }
  if contents = [] then
    { st0 with logs := st0.logs ++ ["❌ No contents found in " ++ source_folder] }
  else
    let st := contents.foldl (processItem fetch createOk source_folder target_folder) st0
    { st with logs := st.logs ++ ["✅ Completed: " ++ toString st.success_count ++ "/"
        ++ toString st.total_count ++ " files processed successfully"] }

/-- A node of the remote store's directory tree: a file with decoded
content, or a directory with children.  Fetching a file is modelled as
returning its stored content. -/
inductive GHNode where
  | file (name : String) (content : String)
  | dir (name : String) (children : List GHNode)

mutual

/-- Lines 131-178 in full: `replicate_folder` on a source folder whose
listing is `children`.  It returns the chronological list of per-level
`(source_folder, success_count, total_count)` reports printed by line
178: an empty listing prints no report (line 140 returns first), and a
parent's own report comes after all reports of its subdirectories. -/
def replicate_folder (createOk : String → String → Bool) (children : List GHNode)
    (source_folder target_folder : String) : List (String × Nat × Nat) :=
  match children with
  | [] => []
  | c :: cs =>
    let r := replicate_items createOk (c :: cs) source_folder target_folder
    r.2.2 ++ [(source_folder, r.1, r.2.1)]
termination_by (sizeOf children, 1)

/-- The `for item in contents` loop of lines 145-176 over a listing,
returning this level's `(success_count, total_count)` deltas together
with every report printed by recursive calls, in order. -/
def replicate_items (createOk : String → String → Bool) (items : List GHNode)
    (source_folder target_folder : String) : Nat × Nat × List (String × Nat × Nat) :=
  match items with
  | [] => (0, 0, [])
  | GHNode.file name content :: rest =>
    let source_path := source_folder ++ "/" ++ name
    let target_path := pyReplaceStr source_path source_folder target_folder
    let r := replicate_items createOk rest source_folder target_folder
    ((if content != "" && createOk target_path (update_content_references content)
        then 1 else 0) + r.1,
     1 + r.2.1, r.2.2)
  | GHNode.dir name sub :: rest =>
    let child_path := source_folder ++ "/" ++ name
    let child_reports := replicate_folder createOk sub child_path
      (pyReplaceStr child_path source_folder target_folder)
    let r := replicate_items createOk rest source_folder target_folder
    (r.1, 1 + r.2.1, child_reports ++ r.2.2)
termination_by (sizeOf items, 0)

end

theorem pyReplace_nil_pat (s rep : List Char) : pyReplace s [] rep = s := by
  rw [pyReplace]

theorem pyReplace_nil (pat rep : List Char) : pyReplace [] pat rep = [] := by
  cases pat with
  | nil => rw [pyReplace]
  | cons p ps => rw [pyReplace]

theorem pyReplace_matched (p : Char) (ps t rep : List Char) :
    pyReplace ((p :: ps) ++ t) (p :: ps) rep = rep ++ pyReplace t (p :: ps) rep := by
  rw [List.cons_append, pyReplace]
  rw [if_pos (show (p :: ps) <+: (p :: (ps ++ t)) from ⟨t, by simp⟩)]
  rw [List.drop_left' rfl]

theorem pyReplace_not_matched (c : Char) (rest pat rep : List Char)
    (h : ¬ pat <+: (c :: rest)) : pyReplace (c :: rest) pat rep = c :: pyReplace rest pat rep := by
  cases pat with
  | nil => exact absurd (List.nil_prefix) h
  | cons p ps =>
    rw [pyReplace]
    rw [if_neg h]

/-- Helper for strong induction on the scanned string's length. -/
theorem pyReplace_self_aux : ∀ (n : Nat) (s pat : List Char), s.length ≤ n →
    pyReplace s pat pat = s
  | _, s, [], _ => pyReplace_nil_pat s []
  | _, [], _ :: _, _ => pyReplace_nil _ _
  | 0, _ :: _, _ :: _, h => absurd h (by simp)
  | n + 1, c :: rest, p :: ps, h => by
    by_cases hpre : (p :: ps) <+: (c :: rest)
    · obtain ⟨t, ht⟩ := hpre
      rw [← ht, pyReplace_matched]
      have hlen : t.length ≤ n := by
        have := congrArg List.length ht
        simp only [List.length_append, List.length_cons] at this h
        omega
      rw [pyReplace_self_aux n t (p :: ps) hlen]
    · rw [pyReplace_not_matched _ _ _ _ hpre]
      have hlen : rest.length ≤ n := by
        simp only [List.length_cons] at h
        omega
      rw [pyReplace_self_aux n rest (p :: ps) hlen]

/-- Replacing a pattern by itself never changes the text. -/
theorem pyReplace_self (s pat : List Char) : pyReplace s pat pat = s :=
  pyReplace_self_aux s.length s pat (Nat.le_refl _)

/-- If the pattern occurs nowhere in the text, the scan changes nothing. -/
theorem pyReplace_of_not_infix (pat rep : List Char) :
    ∀ s : List Char, ¬ pat <:+: s → pyReplace s pat rep = s := by
  intro s
  induction s with
  | nil => intro _; exact pyReplace_nil _ _
  | cons c rest ih =>
    intro h
    have hpre : ¬ pat <+: (c :: rest) := fun hp => h hp.isInfix
    rw [pyReplace_not_matched _ _ _ _ hpre]
    rw [ih (fun hi => h (hi.trans (List.suffix_cons c rest).isInfix))]

/-- Every pair of the hard-coded table has equal key and value, so each
fold step is the identity. -/
theorem update_content_references_eq_id (content : String) :
    update_content_references content = content := by
  simp only [update_content_references, replacements, List.foldl, pyReplaceStr,
    pyReplace_self]

/-- When the pattern heads the text and occurs nowhere in the remainder,
the scan rewrites exactly the leading occurrence. -/
theorem pyReplace_append_not_infix (src suffix dst : List Char)
    (h1 : src ≠ []) (h2 : ¬ src <:+: suffix) :
    pyReplace (src ++ suffix) src dst = dst ++ suffix := by
  cases src with
  | nil => exact absurd rfl h1
  | cons p ps =>
    rw [pyReplace_matched, pyReplace_of_not_infix _ _ _ h2]

/-- Claim C1. The spec says the substitution table maps each configured
source-period token to a spelling one period forward, so some input
containing a token must come back changed.  In the code every find-pattern
equals its replacement, and an input consisting of the configured tokens
comes back verbatim: no token is ever advanced. -/
theorem rewrite_table_never_advances_a_token :
    (replacements.all fun pr => pr.1 == pr.2) = true ∧
    update_content_references "Nav_Oct_2025 October_2025 October october Oct oct 2025-10 10/2025"
      = "Nav_Oct_2025 October_2025 October october Oct oct 2025-10 10/2025" :=
  ⟨by decide, update_content_references_eq_id _⟩

/-- Claim C2, counterexample. Python's `str.replace` rewrites every
occurrence of the source-root, not only the leading one: the entry path
`"A" ++ "/A/x.txt"` is mapped to `"A/Target/A/Target/x.txt"`, not to the
destination-root followed by the original suffix. -/
theorem path_mapping_counterexample :
    pyReplaceStr ("A" ++ "/A/x.txt") "A" "A/Target" = "A/Target/A/Target/x.txt" ∧
    ("A/Target/A/Target/x.txt" : String) ≠ "A/Target" ++ "/A/x.txt" := by
  constructor
  · show String.mk (pyReplace ("A" ++ "/A/x.txt" : String).data ("A" : String).data
      ("A/Target" : String).data) = "A/Target/A/Target/x.txt"
    have e1 : ("A" ++ "/A/x.txt" : String).data
        = ('A' :: []) ++ ("/A/x.txt" : String).data := by decide
    rw [e1, pyReplace_matched]
    have e2 : ("/A/x.txt" : String).data = '/' :: ("A/x.txt" : String).data := by decide
    rw [e2, pyReplace_not_matched _ _ _ _ (by decide)]
    have e3 : ("A/x.txt" : String).data = ('A' :: []) ++ ("/x.txt" : String).data := by decide
    rw [e3, pyReplace_matched, pyReplace_of_not_infix _ _ _ (by decide)]
    decide
  · decide

/-- Claim C2, amended. For every entry path of the form source-root ++
suffix where the source-root is non-empty and occurs nowhere in the
suffix, the mapped destination path is destination-root ++ suffix; in
general the mapping rewrites every occurrence of the source-root, not
only the leading one. -/
theorem path_mapping_structural_on_fresh_suffix (src suffix dst : List Char)
    (h1 : src ≠ []) (h2 : ¬ src <:+: suffix) :
    pyReplace (src ++ suffix) src dst = dst ++ suffix :=
  pyReplace_append_not_infix src suffix dst h1 h2

/-- Witness for the amended claim C2 at a concrete path. -/
theorem path_mapping_structural_on_fresh_suffix_witness :
    (("A" : String).data ≠ [] ∧ ¬ ("A" : String).data <:+: ("/B/x.txt" : String).data) ∧
    pyReplace (("A" : String).data ++ ("/B/x.txt" : String).data)
        ("A" : String).data ("A/October_2025" : String).data
      = ("A/October_2025" : String).data ++ ("/B/x.txt" : String).data :=
  ⟨⟨by decide, by decide⟩,
   path_mapping_structural_on_fresh_suffix _ _ _ (by decide) (by decide)⟩

/-- Claim C3. Every (find, replace) pair of the hard-coded table has a
find-pattern identical to its replacement, so `update_content_references`
returns every input string unchanged. -/
theorem update_content_references_is_identity (content : String) :
    update_content_references content = content :=
  update_content_references_eq_id content

/-- Claim C4. For the path `"A/B/c.txt"` with source-root `"A"` and
destination-root `"A/Target"`, the mapping of line 151 produces exactly
`"A/Target/B/c.txt"`. -/
theorem mapped_path_of_concrete_example :
    pyReplaceStr "A/B/c.txt" "A" "A/Target" = "A/Target/B/c.txt" := by
  show String.mk (pyReplace ("A/B/c.txt" : String).data ("A" : String).data
    ("A/Target" : String).data) = "A/Target/B/c.txt"
  have e1 : ("A/B/c.txt" : String).data
      = ("A" : String).data ++ ("/B/c.txt" : String).data := by decide
  rw [e1, pyReplace_append_not_infix _ _ _ (by decide) (by decide)]
  decide

/-- Claim C5. Applying the rewrite step twice equals applying it once,
under the table condition that no replacement value contains a
find-pattern of an earlier pair. -/
theorem update_content_references_idempotent
    (h : noEarlierFindInLaterValue replacements = true) (content : String) :
    update_content_references (update_content_references content)
      = update_content_references content := by
  rw [update_content_references_eq_id (update_content_references content)]

/-- Witness for claim C5: the hard-coded table satisfies the condition,
and idempotence holds at a concrete text. -/
theorem update_content_references_idempotent_witness :
    noEarlierFindInLaterValue replacements = true ∧
    update_content_references (update_content_references "Oct 2025-10 report")
      = update_content_references "Oct 2025-10 report" :=
  ⟨by decide, update_content_references_idempotent (by decide) "Oct 2025-10 report"⟩

theorem processItem_total_count (fetch : String → String × String)
    (createOk : String → String → Bool) (src tgt : String) (st : LevelState) (item : Entry) :
    (processItem fetch createOk src tgt st item).total_count = st.total_count + 1 := by
  simp only [processItem]
  repeat' split
  all_goals rfl

theorem processItem_fetch_calls (fetch : String → String × String)
    (createOk : String → String → Bool) (src tgt : String) (st : LevelState) (item : Entry) :
    (processItem fetch createOk src tgt st item).fetch_calls
      = st.fetch_calls ++ (if item.type = "file" then [item.path] else []) := by
  simp only [processItem]
  repeat' split
  all_goals simp

theorem processItem_create_calls (fetch : String → String × String)
    (createOk : String → String → Bool) (src tgt : String) (st : LevelState) (item : Entry) :
    (processItem fetch createOk src tgt st item).create_calls
      = st.create_calls ++
          (if item.type = "file" ∧ (fetch item.path).1 ≠ ""
            then [pyReplaceStr item.path src tgt] else []) := by
  simp only [processItem]
  repeat' split
  all_goals simp_all

theorem processItem_recurse_calls (fetch : String → String × String)
    (createOk : String → String → Bool) (src tgt : String) (st : LevelState) (item : Entry) :
    (processItem fetch createOk src tgt st item).recurse_calls
      = st.recurse_calls ++
          (if item.type = "dir"
            then [(item.path, pyReplaceStr item.path src tgt)] else []) := by
  simp only [processItem]
  repeat' split
  all_goals simp_all

theorem processItem_success_count (fetch : String → String × String)
    (createOk : String → String → Bool) (src tgt : String) (st : LevelState) (item : Entry) :
    (processItem fetch createOk src tgt st item).success_count
      = st.success_count +
          (if item.type = "file" ∧ (fetch item.path).1 ≠ ""
              ∧ createOk (pyReplaceStr item.path src tgt)
                  (update_content_references (fetch item.path).1)
            then 1 else 0) := by
  simp only [processItem]
  repeat' split
  all_goals simp_all

/-- A count splits along any second boolean predicate. -/
theorem countP_split_and (l : List Entry) (p q : Entry → Bool) :
    l.countP p = l.countP (fun a => p a && q a) + l.countP (fun a => p a && !q a) := by
  induction l with
  | nil => simp
  | cons a t ih =>
    simp only [List.countP_cons, ih]
    by_cases hp : p a <;> by_cases hq : q a <;> simp [hp, hq] <;> omega

theorem foldl_total_count (fetch : String → String × String)
    (createOk : String → String → Bool) (src tgt : String) :
    ∀ (contents : List Entry) (st : LevelState),
      (contents.foldl (processItem fetch createOk src tgt) st).total_count
        = st.total_count + contents.length := by
  intro contents
  induction contents with
  | nil => intro st; simp
  | cons e rest ih =>
    intro st
    rw [List.foldl_cons, ih, processItem_total_count]
    simp only [List.length_cons]
    omega

theorem foldl_fetch_calls (fetch : String → String × String)
    (createOk : String → String → Bool) (src tgt : String) :
    ∀ (contents : List Entry) (st : LevelState),
      (contents.foldl (processItem fetch createOk src tgt) st).fetch_calls.length
        = st.fetch_calls.length + contents.countP (fun e => e.type == "file") := by
  intro contents
  induction contents with
  | nil => intro st; simp
  | cons e rest ih =>
    intro st
    rw [List.foldl_cons, ih, processItem_fetch_calls]
    rw [List.countP_cons]
    by_cases h : e.type = "file" <;> simp [h] <;> omega

theorem foldl_recurse_calls (fetch : String → String × String)
    (createOk : String → String → Bool) (src tgt : String) :
    ∀ (contents : List Entry) (st : LevelState),
      (contents.foldl (processItem fetch createOk src tgt) st).recurse_calls.length
        = st.recurse_calls.length + contents.countP (fun e => e.type == "dir") := by
  intro contents
  induction contents with
  | nil => intro st; simp
  | cons e rest ih =>
    intro st
    rw [List.foldl_cons, ih, processItem_recurse_calls]
    rw [List.countP_cons]
    by_cases h : e.type = "dir" <;> simp [h] <;> omega

theorem foldl_create_calls (fetch : String → String × String)
    (createOk : String → String → Bool) (src tgt : String) :
    ∀ (contents : List Entry) (st : LevelState),
      (contents.foldl (processItem fetch createOk src tgt) st).create_calls.length
        = st.create_calls.length
          + contents.countP (fun e => e.type == "file" && (fetch e.path).1 != "") := by
  intro contents
  induction contents with
  | nil => intro st; simp
  | cons e rest ih =>
    intro st
    rw [List.foldl_cons, ih, processItem_create_calls]
    rw [List.countP_cons]
    by_cases h1 : e.type = "file" <;> by_cases h2 : (fetch e.path).1 = "" <;>
      simp [h1, h2] <;> omega

theorem level_cons_fetch_calls (fetch : String → String × String)
    (createOk : String → String → Bool) (src tgt : String) (a : Entry) (l : List Entry) :
    (replicate_folder_level fetch createOk (a :: l) src tgt).fetch_calls
      = ((a :: l).foldl (processItem fetch createOk src tgt)
          { initLevelState with
            logs := ["🚀 Starting replication: " ++ src ++ " → " ++ tgt] }).fetch_calls := rfl

theorem level_cons_create_calls (fetch : String → String × String)
    (createOk : String → String → Bool) (src tgt : String) (a : Entry) (l : List Entry) :
    (replicate_folder_level fetch createOk (a :: l) src tgt).create_calls
      = ((a :: l).foldl (processItem fetch createOk src tgt)
          { initLevelState with
            logs := ["🚀 Starting replication: " ++ src ++ " → " ++ tgt] }).create_calls := rfl

theorem level_cons_recurse_calls (fetch : String → String × String)
    (createOk : String → String → Bool) (src tgt : String) (a : Entry) (l : List Entry) :
    (replicate_folder_level fetch createOk (a :: l) src tgt).recurse_calls
      = ((a :: l).foldl (processItem fetch createOk src tgt)
          { initLevelState with
            logs := ["🚀 Starting replication: " ++ src ++ " → " ++ tgt] }).recurse_calls := rfl

/-- Claim C6. On one directory level with N file entries and M
subdirectory entries, the replicator issues exactly N fetch calls,
records exactly one recursion per subdirectory, and issues at most N
create calls, with strictly fewer than N exactly when some file's fetch
returned empty content. -/
theorem replicate_folder_level_call_counts (fetch : String → String × String)
    (createOk : String → String → Bool) (contents : List Entry) (src tgt : String) :
    (replicate_folder_level fetch createOk contents src tgt).fetch_calls.length
        = contents.countP (fun e => e.type == "file")
    ∧ (replicate_folder_level fetch createOk contents src tgt).recurse_calls.length
        = contents.countP (fun e => e.type == "dir")
    ∧ (replicate_folder_level fetch createOk contents src tgt).create_calls.length
        ≤ contents.countP (fun e => e.type == "file")
    ∧ ((replicate_folder_level fetch createOk contents src tgt).create_calls.length
          < contents.countP (fun e => e.type == "file")
        ↔ ∃ e ∈ contents, e.type = "file" ∧ (fetch e.path).1 = "") := by
  cases contents with
  | nil => simp [replicate_folder_level, initLevelState]
  | cons a l =>
    rw [level_cons_fetch_calls, level_cons_create_calls, level_cons_recurse_calls]
    rw [foldl_fetch_calls, foldl_create_calls, foldl_recurse_calls]
    simp only [initLevelState, List.length_nil, Nat.zero_add]
    refine ⟨trivial, trivial, ?_, ?_⟩
    · apply List.countP_mono_left
      intro x _ hx
      simp only [Bool.and_eq_true] at hx
      exact hx.1
    · rw [countP_split_and (a :: l) (fun e => e.type == "file")
        (fun e => (fetch e.path).1 != "")]
      rw [lt_add_iff_pos_right, List.countP_pos_iff]
      constructor
      · rintro ⟨e, he, hp⟩
        refine ⟨e, he, ?_⟩
        simp only [Bool.and_eq_true, beq_iff_eq, Bool.not_eq_true', bne_eq_false_iff_eq] at hp
        exact hp
      · rintro ⟨e, he, h1, h2⟩
        refine ⟨e, he, ?_⟩
        simp [h1, h2]

/-- Claim C7. A failed fetch (any non-200 status, e.g. a 404) is
reported as `("", "")`, and a file item whose fetch came back empty is
counted in the level's total and fetched, but no create call is issued
for it and the success count is untouched. -/
theorem fetch_failure_is_skipped :
    (∀ (b64decode : String → String) (response : HttpResponse),
        response.status_code ≠ 200 → get_file_content b64decode response = ("", "")) ∧
    (∀ (fetch : String → String × String) (createOk : String → String → Bool)
        (src tgt : String) (st : LevelState) (item : Entry),
        item.type = "file" → (fetch item.path).1 = "" →
        processItem fetch createOk src tgt st item
          = { st with total_count := st.total_count + 1,
                      fetch_calls := st.fetch_calls ++ [item.path] }) := by
  constructor
  · intro b64decode response h
    simp [get_file_content, h]
  · intro fetch createOk src tgt st item htype hempty
    simp only [processItem, htype, if_pos rfl, hempty, ne_eq, not_true_eq_false,
      if_false, ite_false]
    rfl

/-- Witness for claim C7: a 404 response yields `("", "")`, and a file
item with an empty fetch leaves the create record and success count of
the fresh state untouched while the total still increments. -/
theorem fetch_failure_is_skipped_witness :
    get_file_content id { status_code := 404, body_content := "irrelevant", body_sha := "irrelevant" }
        = ("", "") ∧
    processItem (fun _ => ("", "")) (fun _ _ => true) "A" "October_2025/A" initLevelState
        { name := "f.txt", path := "A/f.txt", type := "file" }
      = { initLevelState with total_count := 1, fetch_calls := ["A/f.txt"] } :=
  ⟨fetch_failure_is_skipped.1 id _ (by decide),
   fetch_failure_is_skipped.2 (fun _ => ("", "")) (fun _ _ => true) "A" "October_2025/A"
     initLevelState { name := "f.txt", path := "A/f.txt", type := "file" } rfl rfl⟩

/-- Claim C8. An empty source listing issues no remote call at all,
leaves both counters at zero, logs the no-contents message, and returns
(the embedding is a total function, mirroring that this branch raises
nothing and simply terminates the walk). -/
theorem empty_listing_is_terminal (fetch : String → String × String)
    (createOk : String → String → Bool) (src tgt : String) :
    (replicate_folder_level fetch createOk [] src tgt).create_calls = []
    ∧ (replicate_folder_level fetch createOk [] src tgt).fetch_calls = []
    ∧ (replicate_folder_level fetch createOk [] src tgt).recurse_calls = []
    ∧ (replicate_folder_level fetch createOk [] src tgt).success_count = 0
    ∧ (replicate_folder_level fetch createOk [] src tgt).total_count = 0
    ∧ ("❌ No contents found in " ++ src) ∈ (replicate_folder_level fetch createOk [] src tgt).logs := by
  simp [replicate_folder_level, initLevelState]

/-- Claim C9. A create is reported successful only on status 201, and a
file item whose create fails is fetched, counted in the total and in the
create attempts but not in the success count, after which the fold
simply continues with the remaining entries. -/
theorem create_failure_is_nonfatal :
    (∀ response : HttpResponse, response.status_code ≠ 201 → create_file response = false) ∧
    (∀ (fetch : String → String × String) (createOk : String → String → Bool)
        (src tgt : String) (st : LevelState) (item : Entry) (rest : List Entry),
        item.type = "file" → (fetch item.path).1 ≠ "" →
        createOk (pyReplaceStr item.path src tgt)
            (update_content_references (fetch item.path).1) = false →
        List.foldl (processItem fetch createOk src tgt) st (item :: rest)
          = List.foldl (processItem fetch createOk src tgt)
              { st with total_count := st.total_count + 1,
                        fetch_calls := st.fetch_calls ++ [item.path],
                        create_calls := st.create_calls ++ [pyReplaceStr item.path src tgt] }
              rest) := by
  constructor
  · intro response h
    simp [create_file, h]
  · intro fetch createOk src tgt st item rest htype hne hfail
    rw [List.foldl_cons]
    congr 1
    simp only [processItem, htype, if_pos rfl, hne, ne_eq, not_false_eq_true, if_true,
      ite_true, hfail, if_false, ite_false]
    rfl

/-- Witness for claim C9: a 422 response makes `create_file` report
false, and a one-item level whose create fails ends with total 1,
success 0 and the attempted create recorded. -/
theorem create_failure_is_nonfatal_witness :
    create_file { status_code := 422, body_content := "", body_sha := "" } = false ∧
    List.foldl (processItem (fun _ => ("hello", "sha1")) (fun _ _ => false) "A" "October_2025/A")
        initLevelState [{ name := "f.txt", path := "A/f.txt", type := "file" }]
      = { initLevelState with
          total_count := 1,
          fetch_calls := ["A/f.txt"],
          create_calls := [pyReplaceStr "A/f.txt" "A" "October_2025/A"] } :=
  ⟨create_failure_is_nonfatal.1 _ (by decide),
   create_failure_is_nonfatal.2 (fun _ => ("hello", "sha1")) (fun _ _ => false) "A"
     "October_2025/A" initLevelState { name := "f.txt", path := "A/f.txt", type := "file" } []
     rfl (by decide) rfl⟩

theorem replicate_items_total (createOk : String → String → Bool) (src tgt : String) :
    ∀ items : List GHNode, (replicate_items createOk items src tgt).2.1 = items.length := by
  intro items
  induction items with
  | nil => simp [replicate_items]
  | cons x rest ih =>
    cases x with
    | file name content =>
      simp only [replicate_items, ih, List.length_cons]
      omega
    | dir name sub =>
      simp only [replicate_items, ih, List.length_cons]
      omega

theorem replicate_items_success_congr (createOk : String → String → Bool)
    (src tgt name : String) (ds ds' : List GHNode) :
    ∀ (pre post : List GHNode),
      (replicate_items createOk (pre ++ GHNode.dir name ds :: post) src tgt).1
        = (replicate_items createOk (pre ++ GHNode.dir name ds' :: post) src tgt).1 := by
  intro pre
  induction pre with
  | nil =>
    intro post
    simp only [List.nil_append, replicate_items]
  | cons a pre' ih =>
    intro post
    cases a with
    | file n c =>
      simp only [List.cons_append, replicate_items, ih]
    | dir n sub =>
      simp only [List.cons_append, replicate_items, ih]

theorem replicate_folder_ne (createOk : String → String → Bool) (cs : List GHNode)
    (src tgt : String) (h : cs ≠ []) :
    replicate_folder createOk cs src tgt
      = (replicate_items createOk cs src tgt).2.2
        ++ [(src, (replicate_items createOk cs src tgt).1,
             (replicate_items createOk cs src tgt).2.1)] := by
  cases cs with
  | nil => exact absurd rfl h
  | cons c cs' => rw [replicate_folder]

/-- Claim C10. The report a level prints for itself (the last one it
emits) carries a success count that does not depend on what is inside
any subdirectory of its listing — replacing a subdirectory's entire
subtree `ds` by an arbitrary `ds'` leaves it unchanged — and a total
equal to the number of immediate entries: recursion returns nothing into
the caller's counters. -/
theorem recursion_leaves_parent_counters (createOk : String → String → Bool)
    (src tgt name : String) (pre post ds ds' : List GHNode) :
    (replicate_folder createOk (pre ++ GHNode.dir name ds :: post) src tgt).getLast?
      = some (src,
          (replicate_items createOk (pre ++ GHNode.dir name ds' :: post) src tgt).1,
          (pre ++ GHNode.dir name ds :: post).length) := by
  rw [replicate_folder_ne _ _ _ _ (by simp)]
  rw [List.getLast?_concat]
  rw [replicate_items_success_congr createOk src tgt name ds ds' pre post]
  rw [replicate_items_total]
